import Mathlib

/-!
Verification development for the batch file transfer engine of the
databento-python repository (`src/databento/historical/api/batch.py`).

The shallow embedding translates `BatchHttpAPI._download_batch_file`
(the per-target retry loop with range resumption and checksum
verification), `_BatchDownload.__init__` (manifest resolution), and the
fan-in logic of `_BatchDownload.download` / `_BatchDownload.download_async`
into executable Lean functions.  Network fetches, the content-digest
function, and wall-clock sleeping are modelled as oracles / traces, since
those are external collaborators of the transfer engine.
-/

namespace Databento

/-- `BATCH_DOWNLOAD_MAX_RETRIES = 3` (batch.py line 50): the number of
generic-failure retries allowed after the first attempt. -/
def BATCH_DOWNLOAD_MAX_RETRIES : Nat := 3

/-- Mirrors the `_BatchDownloadFile` dataclass: one entry of the job
manifest after normalization. -/
structure BatchDownloadFile where
  filename : String
  hash_str : String
  https_url : String
  size : Nat
deriving DecidableEq, Repr

/-- First-key association-list lookup, modelling Python `dict.get` /
`dict[...]` for the string-keyed mappings the code reads. -/
def alistGet {α : Type} : List (String × α) → String → Option α
  | [], _ => none
  | (k, v) :: rest, key => if k = key then some v else alistGet rest key

/-- One outcome of a single `requests.get` attempt, as observed by the
retry loop.  `success body` models a 2xx response whose body streamed
completely; `httpError status headers` models the typed `BentoHttpError`
raised by the transport collaborator `check_http_error` on a non-2xx
status; `connError written msg` models any other exception (connection
failure, timeout, mid-stream drop), where `written = none` means the
failure occurred before the destination file was opened and
`written = some bs` means the file was opened in the chosen mode and `bs`
bytes were written before the failure. -/
inductive FetchResult where
  | success (body : List Nat)
  | httpError (status : Nat) (headers : List (String × String))
  | connError (written : Option (List Nat)) (msg : String)
deriving DecidableEq, Repr

/-- One HTTP request issued by the loop: the target URL and the optional
byte range taken from the `Range: bytes=start-end` header. -/
structure HttpRequest where
  url : String
  range : Option (Nat × Nat)
deriving DecidableEq, Repr

/-- Non-fatal warnings emitted after a completed download (checksum
mismatch via `warnings.warn`/`logger.warning`, unsupported hash algorithm
via `logger.warning`). -/
inductive Warning where
  | checksumMismatch (filename : String)
  | unsupportedAlgorithm (filename : String) (algo : String)
deriving DecidableEq, Repr

/-- Errors with which `_download_batch_file` terminates a target:
`fileExists` is the `FileExistsError` for an oversized local file;
`httpStatus` is a re-raised non-429 `BentoHttpError`; `invalidRetryAfter`
is the `ValueError` raised by `int(...)` on an unparsable `Retry-After`
header value; `bentoError` is the terminal
`BentoError("Error downloading file: ...")` carrying the last underlying
cause after the retry bound is exhausted. -/
inductive DownloadError where
  | fileExists (filename : String)
  | httpStatus (status : Nat) (headers : List (String × String))
  | invalidRetryAfter (value : String)
  | bentoError (cause : String)
deriving DecidableEq, Repr

/-- Result of the `while True` loop of `_download_batch_file`: the final
local file content, the requests issued, the sleeps performed (seconds per
`sleep` call), and `error = none` iff the loop exited through `break`. -/
structure LoopResult where
  disk : Option (List Nat)
  requests : List HttpRequest
  sleeps : List Int
  error : Option DownloadError
deriving DecidableEq, Repr

/-- Whitespace trim on a character list (models `str.strip` done inside
Python `int(str)`). -/
def trimChars (cs : List Char) : List Char :=
  ((cs.dropWhile Char.isWhitespace).reverse.dropWhile Char.isWhitespace).reverse

/-- Decimal digits to a number; `none` unless nonempty and all digits. -/
def digitsToNat? (cs : List Char) : Option Nat :=
  if cs = [] then none
  else if cs.all Char.isDigit then
    some (cs.foldl (fun a c => a * 10 + (c.toNat - 48)) 0)
  else none

/-- Models the Python builtin `int(s)` conversion on a string: strips
whitespace, allows one leading sign, then decimal digits; returns `none`
where Python raises `ValueError`.  (Underscore digit separators are not
modelled; no claim depends on them.) -/
def pythonInt? (s : String) : Option Int :=
  match trimChars s.data with
  | [] => none
  | c :: cs =>
    if c = '+' then (digitsToNat? cs).map (fun n => (n : Int))
    else if c = '-' then (digitsToNat? cs).map (fun n => -(n : Int))
    else (digitsToNat? (c :: cs)).map (fun n => (n : Int))

/-- The wait computed on a 429 response:
`int(exc.headers.get("Retry-After", 1))`.  Absent header: the default
`1`.  Present header: Python `int` of its value, `none` modelling the
`ValueError` crash. -/
def retryWait (headers : List (String × String)) : Option Int :=
  match alistGet headers "Retry-After" with
  | none => some 1
  | some v => pythonInt? v

/-- The local-file inspection at the top of each loop iteration
(batch.py lines 396-409): decides between resuming with a byte range in
append mode, breaking because the file is complete, or raising
`FileExistsError` because the file is larger than expected.  An absent
file means a plain request with the file created fresh (`mode = "wb"`). -/
inductive LocalCheck where
  | complete
  | conflict
  | fetch (range : Option (Nat × Nat)) (content : List Nat) (append : Bool)
deriving DecidableEq, Repr

/-- Effect of a failed attempt on the destination file: `written = none`
when the exception struck before `open`, otherwise the written bytes land
in the chosen mode (`"ab"` appends to the resumed content, `"wb"`
truncates first). -/
def applyWritten (disk : Option (List Nat)) (content : List Nat) (app : Bool)
    (written : Option (List Nat)) : Option (List Nat) :=
  match written with
  | none => disk
  | some bs => some (if app then content ++ bs else bs)

/-- Inspect the destination file state, mirroring lines 396-409. -/
def inspectLocal (bf : BatchDownloadFile) (disk : Option (List Nat)) : LocalCheck :=
  match disk with
  | some content =>
    if content.length < bf.size then
      .fetch (some (content.length, bf.size - 1)) content true
    else if content.length = bf.size then .complete
    else .conflict
  | none => .fetch none [] false

/-- The `while True` loop of `_download_batch_file` (lines 394-437),
driven by `oracle : Nat → FetchResult` giving the outcome of the i-th
`requests.get` call.  `fuel` bounds the number of iterations modelled
(`none` = the loop did not terminate within `fuel` iterations); `reqIdx`
counts requests issued so far; `attempts` is the generic-failure counter.
On `connError` the partial bytes are applied in the chosen mode; retries
happen only while `attempts < BATCH_DOWNLOAD_MAX_RETRIES`, after which
the terminal `bentoError` wraps the last cause.  A 429 sleeps for
`retryWait` and retries without touching `attempts`; any other
`httpError` is re-raised at once. -/
def downloadLoop (oracle : Nat → FetchResult) (bf : BatchDownloadFile) :
    Nat → Nat → Nat → Option (List Nat) → Option LoopResult
  | 0, _, _, _ => none
  | fuel + 1, reqIdx, attempts, disk =>
    match inspectLocal bf disk with
    | .complete => some ⟨disk, [], [], none⟩
    | .conflict => some ⟨disk, [], [], some (.fileExists bf.filename)⟩
    | .fetch range content app =>
      let req : HttpRequest := ⟨bf.https_url, range⟩
      match oracle reqIdx with
      | .success body =>
        some ⟨some (if app then content ++ body else body), [req], [], none⟩
      | .httpError status headers =>
        if status = 429 then
          match retryWait headers with
          | none =>
            some ⟨disk, [req], [],
              some (.invalidRetryAfter ((alistGet headers "Retry-After").getD ""))⟩
          | some w =>
            match downloadLoop oracle bf fuel (reqIdx + 1) attempts disk with
            | none => none
            | some r => some ⟨r.disk, req :: r.requests, w :: r.sleeps, r.error⟩
        else
          some ⟨disk, [req], [], some (.httpStatus status headers)⟩
      | .connError written msg =>
        let newDisk : Option (List Nat) := applyWritten disk content app written
        if attempts < BATCH_DOWNLOAD_MAX_RETRIES then
          match downloadLoop oracle bf fuel (reqIdx + 1) (attempts + 1) newDisk with
          | none => none
          | some r => some ⟨r.disk, req :: r.requests, r.sleeps, r.error⟩
        else
          some ⟨newDisk, [req], [], some (.bentoError msg)⟩

/-- Split a character list at the first occurrence of `sep`. -/
def splitFirst (sep : Char) : List Char → Option (List Char × List Char)
  | [] => none
  | c :: rest =>
    if c = sep then some ([], rest)
    else
      match splitFirst sep rest with
      | none => none
      | some (pre, post) => some (c :: pre, post)

/-- Models Python `str.partition` with a one-character separator, as used
by `batch_download_file.hash_str.partition(":")`. -/
def str_partition (s : String) (sep : Char) : String × String × String :=
  match splitFirst sep s.data with
  | none => (s, "", "")
  | some (pre, post) => (⟨pre⟩, ⟨[sep]⟩, ⟨post⟩)

/-- The checksum verification after the loop breaks (lines 440-453),
with `digest` modelling `hashlib.sha256(bytes).hexdigest()` applied to
the final file content.  The computed hex is compared to the declared hex
with plain string inequality; a mismatch or an unsupported algorithm only
emits a warning. -/
def verifyChecksum (digest : List Nat → String) (bf : BatchDownloadFile)
    (content : List Nat) : List Warning :=
  let parts := str_partition bf.hash_str ':'
  if parts.1 = "sha256" then
    if digest content ≠ parts.2.2 then [.checksumMismatch bf.filename] else []
  else [.unsupportedAlgorithm bf.filename parts.1]

/-- Full result of `_download_batch_file` on one target: final file
content, request/sleep traces, terminal error (`outcome = some e`) or
success (`outcome = none`, the output path is returned), and the warnings
emitted by verification. -/
structure RunResult where
  disk : Option (List Nat)
  requests : List HttpRequest
  sleeps : List Int
  outcome : Option DownloadError
  warnings : List Warning
deriving DecidableEq, Repr

/-- `_download_batch_file`: run the retry loop from a local file state,
then, if it breaks out, verify the checksum and return the path. -/
def download_batch_file (digest : List Nat → String) (oracle : Nat → FetchResult)
    (bf : BatchDownloadFile) (fuel : Nat) (disk : Option (List Nat)) :
    Option RunResult :=
  match downloadLoop oracle bf fuel 0 0 disk with
  | none => none
  | some r =>
    match r.error with
    | some e => some ⟨r.disk, r.requests, r.sleeps, some e, []⟩
    | none =>
      some ⟨r.disk, r.requests, r.sleeps, none,
        verifyChecksum digest bf (r.disk.getD [])⟩

/-- One raw entry of the remote file listing (`list_files` JSON object),
with `none` for an absent key (Python `KeyError`). -/
structure RawEntry where
  filename : Option String
  hash : Option String
  size : Option Nat
  urls : Option (List (String × String))
deriving DecidableEq, Repr

/-- Fatal errors raised by `_BatchDownload.__init__`: `noFiles` is the
`RuntimeError` for an empty listing; `missingKey` is the
`BentoError("Batch job manifest missing key ...")`; `deliveryUnavailable`
is the `ValueError` naming the filename when `urls` has no `https`
entry. -/
inductive InitError where
  | noFiles (jobId : String)
  | missingKey (key : String)
  | deliveryUnavailable (filename : String)
deriving DecidableEq, Repr

/-- Result of manifest resolution. -/
inductive TargetsResult where
  | ok (files : List BatchDownloadFile)
  | error (e : InitError)
deriving DecidableEq, Repr

/-- Membership test against the optional caller-supplied filename set
(`filenames_to_download is None or filename in filenames_to_download`). -/
def keepFile (flt : Option (List String)) (filename : String) : Bool :=
  match flt with
  | none => true
  | some names => names.contains filename

/-- The per-entry validation and filter loop of `_BatchDownload.__init__`
(lines 498-526): each entry must supply `filename`, `hash`, `size` and
`urls` (first missing key wins, in that access order) and an `https` URL;
only then is the filename filter consulted to decide whether the target
is kept. -/
def parse_files (flt : Option (List String)) : List RawEntry → TargetsResult
  | [] => .ok []
  | e :: rest =>
    match e.filename with
    | none => .error (.missingKey "filename")
    | some filename =>
      match e.hash with
      | none => .error (.missingKey "hash")
      | some hash_digest =>
        match e.size with
        | none => .error (.missingKey "size")
        | some size =>
          match e.urls with
          | none => .error (.missingKey "urls")
          | some urls =>
            match alistGet urls "https" with
            | none => .error (.deliveryUnavailable filename)
            | some https_url =>
              match parse_files flt rest with
              | .error er => .error er
              | .ok files =>
                if keepFile flt filename then
                  .ok (⟨filename, hash_digest, https_url, size⟩ :: files)
                else .ok files

/-- `_BatchDownload.__init__` target construction (lines 488-530): an
empty remote listing fails first; otherwise each entry is validated and
filtered by `parse_files`. -/
def buildTargets (jobId : String) (jobDetails : List RawEntry)
    (flt : Option (List String)) : TargetsResult :=
  match jobDetails with
  | [] => .error (.noFiles jobId)
  | e :: rest => parse_files flt (e :: rest)

/-- Local filesystem model: directories that exist and files
(path to byte content). -/
structure Disk where
  dirs : List String
  files : List (String × List Nat)
deriving DecidableEq, Repr

/-- Replace or add the content of a file at a path. -/
def setFile : List (String × List Nat) → String → List Nat →
    List (String × List Nat)
  | [], p, c => [(p, c)]
  | (q, d) :: rest, p, c =>
    if q = p then (p, c) :: rest else (q, d) :: setFile rest p c

/-- Apply a per-target final file state: `none` means the file was never
created by the task, so the filesystem is untouched. -/
def applyDisk (fs : List (String × List Nat)) (path : String)
    (d : Option (List Nat)) : List (String × List Nat) :=
  match d with
  | none => fs
  | some c => setFile fs path c

/-- `mkdir(exist_ok=True)` on the flat directory model. -/
def insertDir (dirs : List String) (d : String) : List String :=
  if dirs.contains d then dirs else dirs ++ [d]

/-- Outcome of running all transfer tasks: the list of local paths, or
the first fatal per-target error. -/
inductive BatchOutcome where
  | ok (paths : List String)
  | error (e : DownloadError)
deriving DecidableEq, Repr

/-- Aggregate result of running the tasks of one job. -/
structure BatchResult where
  files : List (String × List Nat)
  requests : List HttpRequest
  outcome : BatchOutcome
  warnings : List Warning
deriving DecidableEq, Repr

/-- Run the per-target tasks of `_BatchDownload.download` over the
filesystem, one task per target at path `dir ++ "/" ++ filename`
(the tasks own disjoint files, so the interleaving of the pool is modelled as
the submission order); `oracles i` drives the fetches of the i-th task.
Stops at the first fatal task error. -/
def runBatch (digest : List Nat → String) (oracles : Nat → Nat → FetchResult)
    (fuel : Nat) (dir : String) :
    List BatchDownloadFile → Nat → List (String × List Nat) →
    Option BatchResult
  | [], _, fs => some ⟨fs, [], .ok [], []⟩
  | t :: rest, idx, fs =>
    let path := dir ++ "/" ++ t.filename
    match download_batch_file digest (oracles idx) t fuel (alistGet fs path) with
    | none => none
    | some r =>
      let fs1 := applyDisk fs path r.disk
      match r.outcome with
      | some e => some ⟨fs1, r.requests, .error e, r.warnings⟩
      | none =>
        match runBatch digest oracles fuel dir rest (idx + 1) fs1 with
        | none => none
        | some br =>
          some ⟨br.files, r.requests ++ br.requests,
            (match br.outcome with
             | .error e => .error e
             | .ok ps => .ok (path :: ps)),
            r.warnings ++ br.warnings⟩

/-- A fatal outcome of the whole entry point: construction-time
(`__init__`) or transfer-time. -/
inductive BatchError where
  | init (e : InitError)
  | transfer (e : DownloadError)
deriving DecidableEq, Repr

/-- Result of the `download` entry point. -/
inductive BatchDownloadOutcome where
  | ok (paths : List String)
  | error (e : BatchError)
deriving DecidableEq, Repr

/-- The full `BatchHttpAPI.download` pipeline: build targets from the
remote listing (`_BatchDownload.__init__`; a failure there happens before
any filesystem change), then create `outputDir/jobId` (`mkdir` with
`exist_ok=True`) and run the tasks.  Also returns the resulting
filesystem and the full list of HTTP requests issued. -/
def batch_download (digest : List Nat → String)
    (oracles : Nat → Nat → FetchResult) (fuel : Nat) (jobId : String)
    (outputDir : String) (entries : List RawEntry)
    (flt : Option (List String)) (disk : Disk) :
    Option (BatchDownloadOutcome × Disk × List HttpRequest) :=
  match buildTargets jobId entries flt with
  | .error e => some (.error (.init e), disk, [])
  | .ok targets =>
    let dir := outputDir ++ "/" ++ jobId
    match runBatch digest oracles fuel dir targets 0 disk.files with
    | none => none
    | some br =>
      some
        ((match br.outcome with
          | .error e => .error (.transfer e)
          | .ok ps => .ok ps),
         ⟨insertDir disk.dirs dir, br.files⟩, br.requests)

/-- Per-task terminal state as seen by the fan-in loops: the path
returned by `_download_batch_file`, or the exception it raised. -/
inductive TaskResult where
  | ok (path : String)
  | error (e : DownloadError)
deriving DecidableEq, Repr

/-- Fan-in of the blocking `_BatchDownload.download` (lines 545-550):
walk the task outcomes in completion order, collecting paths; the first
raised error propagates out of `completed.result()`.  The second
component is the set of task indices on which `cancel` was requested:
this entry point never cancels anything. -/
def download_collect : List TaskResult → BatchOutcome × List Nat
  | [] => (.ok [], [])
  | .error e :: _ => (.error e, [])
  | .ok p :: rest =>
    match download_collect rest with
    | (.error e, c) => (.error e, c)
    | (.ok ps, c) => (.ok (p :: ps), c)

/-- Fan-in of `_BatchDownload.download_async` (lines 566-576) with the
total task count `n`: same collection in completion order, but the first
error requests `cancel` on every task in `tasks` before re-raising. -/
def download_async_collect_go (n : Nat) :
    List TaskResult → BatchOutcome × List Nat
  | [] => (.ok [], [])
  | .error e :: _ => (.error e, List.range n)
  | .ok p :: rest =>
    match download_async_collect_go n rest with
    | (.error e, c) => (.error e, c)
    | (.ok ps, c) => (.ok (p :: ps), c)

/-- Fan-in of `_BatchDownload.download_async`, cancelling all members of
the `tasks` list on the first error. -/
def download_async_collect (results : List TaskResult) :
    BatchOutcome × List Nat :=
  download_async_collect_go results.length results

/-- All four required keys present and an `https` URL available: the
condition under which `__init__` accepts a manifest entry. -/
def entryOk (e : RawEntry) : Bool :=
  match e.filename, e.hash, e.size, e.urls with
  | some _, some _, some _, some urls => (alistGet urls "https").isSome
  | _, _, _, _ => false

/-- The byte range the next attempt requests, as a function of the local
file state: absent file means a plain request, a file holding `k` bytes
means `Range: bytes=k-(size-1)`. -/
def resumeRange (bf : BatchDownloadFile) (disk : Option (List Nat)) :
    Option (Nat × Nat) :=
  match disk with
  | none => none
  | some c => some (c.length, bf.size - 1)

/-- ASCII lower-casing of one character (used only to express
case-insensitive hex comparison in statements). -/
def lowerChar (c : Char) : Char :=
  if 'A' ≤ c ∧ c ≤ 'Z' then Char.ofNat (c.toNat + 32) else c

/-- ASCII lower-casing of a string. -/
def lowerStr (s : String) : String := ⟨s.data.map lowerChar⟩

/-!  ### Helper lemmas: one loop iteration per branch  -/

theorem downloadLoop_complete {bf : BatchDownloadFile} {disk : Option (List Nat)}
    (oracle : Nat → FetchResult) (fuel reqIdx attempts : Nat)
    (h : inspectLocal bf disk = .complete) :
    downloadLoop oracle bf (fuel + 1) reqIdx attempts disk =
      some ⟨disk, [], [], none⟩ := by
  simp only [downloadLoop, h]

theorem downloadLoop_conflict {bf : BatchDownloadFile} {disk : Option (List Nat)}
    (oracle : Nat → FetchResult) (fuel reqIdx attempts : Nat)
    (h : inspectLocal bf disk = .conflict) :
    downloadLoop oracle bf (fuel + 1) reqIdx attempts disk =
      some ⟨disk, [], [], some (.fileExists bf.filename)⟩ := by
  simp only [downloadLoop, h]

theorem downloadLoop_success {oracle : Nat → FetchResult}
    {bf : BatchDownloadFile} {disk : Option (List Nat)}
    {range : Option (Nat × Nat)} {content : List Nat} {app : Bool}
    {body : List Nat} (fuel attempts : Nat) {reqIdx : Nat}
    (h : inspectLocal bf disk = .fetch range content app)
    (ho : oracle reqIdx = .success body) :
    downloadLoop oracle bf (fuel + 1) reqIdx attempts disk =
      some ⟨some (if app then content ++ body else body),
        [⟨bf.https_url, range⟩], [], none⟩ := by
  simp only [downloadLoop, h, ho]

theorem downloadLoop_http_other {oracle : Nat → FetchResult}
    {bf : BatchDownloadFile} {disk : Option (List Nat)}
    {range : Option (Nat × Nat)} {content : List Nat} {app : Bool}
    {status : Nat} {headers : List (String × String)}
    (fuel attempts : Nat) {reqIdx : Nat}
    (h : inspectLocal bf disk = .fetch range content app)
    (ho : oracle reqIdx = .httpError status headers)
    (hs : status ≠ 429) :
    downloadLoop oracle bf (fuel + 1) reqIdx attempts disk =
      some ⟨disk, [⟨bf.https_url, range⟩], [],
        some (.httpStatus status headers)⟩ := by
  simp only [downloadLoop, h, ho, if_neg hs]

theorem downloadLoop_429_wait {oracle : Nat → FetchResult}
    {bf : BatchDownloadFile} {disk : Option (List Nat)}
    {range : Option (Nat × Nat)} {content : List Nat} {app : Bool}
    {headers : List (String × String)} {w : Int}
    (fuel attempts : Nat) {reqIdx : Nat}
    (h : inspectLocal bf disk = .fetch range content app)
    (ho : oracle reqIdx = .httpError 429 headers)
    (hw : retryWait headers = some w) :
    downloadLoop oracle bf (fuel + 1) reqIdx attempts disk =
      match downloadLoop oracle bf fuel (reqIdx + 1) attempts disk with
      | none => none
      | some r =>
        some ⟨r.disk, ⟨bf.https_url, range⟩ :: r.requests, w :: r.sleeps,
          r.error⟩ := by
  simp [downloadLoop, h, ho, hw]

theorem downloadLoop_429_invalid {oracle : Nat → FetchResult}
    {bf : BatchDownloadFile} {disk : Option (List Nat)}
    {range : Option (Nat × Nat)} {content : List Nat} {app : Bool}
    {headers : List (String × String)}
    (fuel attempts : Nat) {reqIdx : Nat}
    (h : inspectLocal bf disk = .fetch range content app)
    (ho : oracle reqIdx = .httpError 429 headers)
    (hw : retryWait headers = none) :
    downloadLoop oracle bf (fuel + 1) reqIdx attempts disk =
      some ⟨disk, [⟨bf.https_url, range⟩], [],
        some (.invalidRetryAfter ((alistGet headers "Retry-After").getD ""))⟩ := by
  simp [downloadLoop, h, ho, hw]

theorem downloadLoop_conn_retry {oracle : Nat → FetchResult}
    {bf : BatchDownloadFile} {disk : Option (List Nat)}
    {range : Option (Nat × Nat)} {content : List Nat} {app : Bool}
    {written : Option (List Nat)} {msg : String}
    (fuel : Nat) {reqIdx attempts : Nat}
    (h : inspectLocal bf disk = .fetch range content app)
    (ho : oracle reqIdx = .connError written msg)
    (ha : attempts < BATCH_DOWNLOAD_MAX_RETRIES) :
    downloadLoop oracle bf (fuel + 1) reqIdx attempts disk =
      match downloadLoop oracle bf fuel (reqIdx + 1) (attempts + 1)
          (applyWritten disk content app written) with
      | none => none
      | some r =>
        some ⟨r.disk, ⟨bf.https_url, range⟩ :: r.requests, r.sleeps,
          r.error⟩ := by
  simp only [downloadLoop, h, ho, if_pos ha]

theorem downloadLoop_conn_exhaust {oracle : Nat → FetchResult}
    {bf : BatchDownloadFile} {disk : Option (List Nat)}
    {range : Option (Nat × Nat)} {content : List Nat} {app : Bool}
    {written : Option (List Nat)} {msg : String}
    (fuel : Nat) {reqIdx attempts : Nat}
    (h : inspectLocal bf disk = .fetch range content app)
    (ho : oracle reqIdx = .connError written msg)
    (ha : ¬ attempts < BATCH_DOWNLOAD_MAX_RETRIES) :
    downloadLoop oracle bf (fuel + 1) reqIdx attempts disk =
      some ⟨applyWritten disk content app written, [⟨bf.https_url, range⟩], [],
        some (.bentoError msg)⟩ := by
  simp only [downloadLoop, h, ho, if_neg ha]

/-- An absent or strictly-short local file always lands in the `fetch`
branch, requesting `resumeRange`. -/
theorem inspectLocal_of_incomplete {bf : BatchDownloadFile}
    {disk : Option (List Nat)}
    (hdisk : disk = none ∨ ∃ c, disk = some c ∧ c.length < bf.size) :
    ∃ content app, inspectLocal bf disk = .fetch (resumeRange bf disk) content app := by
  rcases hdisk with rfl | ⟨c, rfl, hc⟩
  · exact ⟨[], false, rfl⟩
  · exact ⟨c, true, by simp [inspectLocal, resumeRange, hc]⟩

/-- Four consecutive generic failures that write nothing exhaust the
retry bound: at fuel `f + 4` and attempt counter `0`, the loop issues
exactly four requests and terminates with `bentoError` wrapping the
fourth cause, leaving the file untouched. -/
theorem downloadLoop_conn_four {oracle : Nat → FetchResult}
    {bf : BatchDownloadFile} {disk : Option (List Nat)}
    {range : Option (Nat × Nat)} {content : List Nat} {app : Bool}
    (m : Nat → String) (f reqIdx : Nat)
    (h : inspectLocal bf disk = .fetch range content app)
    (ho : ∀ i, reqIdx ≤ i → oracle i = .connError none (m i)) :
    downloadLoop oracle bf (f + 4) reqIdx 0 disk =
      some ⟨disk, List.replicate 4 ⟨bf.https_url, range⟩, [],
        some (.bentoError (m (reqIdx + 3)))⟩ := by
  have ha0 : (0 : Nat) < BATCH_DOWNLOAD_MAX_RETRIES := by decide
  have ha1 : (1 : Nat) < BATCH_DOWNLOAD_MAX_RETRIES := by decide
  have ha2 : (2 : Nat) < BATCH_DOWNLOAD_MAX_RETRIES := by decide
  have ha3 : ¬ (3 : Nat) < BATCH_DOWNLOAD_MAX_RETRIES := by decide
  show downloadLoop oracle bf ((f + 3) + 1) reqIdx 0 disk = _
  rw [downloadLoop_conn_retry (f + 3) h (ho reqIdx le_rfl) ha0]
  simp only [applyWritten]
  rw [show f + 3 = (f + 2) + 1 from rfl,
    downloadLoop_conn_retry (f + 2) h (ho (reqIdx + 1) (by omega)) ha1]
  simp only [applyWritten]
  rw [show f + 2 = (f + 1) + 1 from rfl,
    downloadLoop_conn_retry (f + 1) h (ho (reqIdx + 1 + 1) (by omega)) ha2]
  simp only [applyWritten]
  rw [downloadLoop_conn_exhaust f h (ho (reqIdx + 1 + 1 + 1) (by omega)) ha3]
  simp only [applyWritten]
  rw [show reqIdx + 1 + 1 + 1 = reqIdx + 3 by omega]
  simp [List.replicate]

/-- A local file that already has the expected size short-circuits the
loop with no request, no sleep and no error. -/
theorem downloadLoop_complete_size {oracle : Nat → FetchResult}
    {bf : BatchDownloadFile} {c : List Nat} (fuel reqIdx attempts : Nat)
    (hc : c.length = bf.size) :
    downloadLoop oracle bf (fuel + 1) reqIdx attempts (some c) =
      some ⟨some c, [], [], none⟩ := by
  refine downloadLoop_complete oracle fuel reqIdx attempts ?_
  simp [inspectLocal, hc]

/-- `_download_batch_file` on an already-complete file: success at once,
zero requests, file untouched, checksum verification still runs. -/
theorem download_batch_file_complete (digest : List Nat → String)
    (oracle : Nat → FetchResult) {bf : BatchDownloadFile} {c : List Nat}
    {fuel : Nat} (hc : c.length = bf.size) (hfuel : 1 ≤ fuel) :
    download_batch_file digest oracle bf fuel (some c) =
      some ⟨some c, [], [], none, verifyChecksum digest bf c⟩ := by
  obtain ⟨f, rfl⟩ : ∃ f, fuel = f + 1 := ⟨fuel - 1, by omega⟩
  unfold download_batch_file
  rw [downloadLoop_complete_size f 0 0 hc]
  rfl

/-!  ### Claim theorems  -/

/-- C1: for a transfer target whose fetch raises a generic transient
error on every attempt (each failing before writing anything), starting
from an absent or strictly-short destination file, the download
terminates with the terminal `BentoError` wrapping the last underlying
cause, after exactly 4 total attempts (1 initial + 3 retries): exactly
four requests are issued and the error carries the cause of the fourth
attempt (index 3). -/
theorem retry_bound_exhausts_after_four (digest : List Nat → String)
    (oracle : Nat → FetchResult) (m : Nat → String) (bf : BatchDownloadFile)
    (disk : Option (List Nat)) (fuel : Nat)
    (horacle : ∀ i, oracle i = .connError none (m i))
    (hdisk : disk = none ∨ ∃ c, disk = some c ∧ c.length < bf.size)
    (hfuel : 4 ≤ fuel) :
    download_batch_file digest oracle bf fuel disk =
      some ⟨disk, List.replicate 4 ⟨bf.https_url, resumeRange bf disk⟩, [],
        some (.bentoError (m 3)), []⟩ := by
  obtain ⟨content, app, h⟩ := inspectLocal_of_incomplete hdisk
  obtain ⟨f, rfl⟩ : ∃ f, fuel = f + 4 := ⟨fuel - 4, by omega⟩
  unfold download_batch_file
  rw [downloadLoop_conn_four m f 0 h (fun i _ => horacle i)]

/-- Witness for C1 at a concrete target and always-failing oracle. -/
theorem retry_bound_exhausts_after_four_witness :
    download_batch_file (fun _ => "d") (fun _ => .connError none "boom")
      ⟨"f", "sha256:aa", "https://x", 3⟩ 6 none =
      some ⟨none, List.replicate 4 ⟨"https://x", none⟩, [],
        some (.bentoError "boom"), []⟩ :=
  retry_bound_exhausts_after_four (fun _ => "d")
    (fun _ => .connError none "boom") (fun _ => "boom")
    ⟨"f", "sha256:aa", "https://x", 3⟩ none 6 (fun _ => rfl) (Or.inl rfl)
    (by decide)

/-- C2 counterexample: a typed HTTP error with status 500 (non-2xx,
not 429) on the very first attempt.  The run issues exactly one request
and terminates with the re-raised `httpStatus 500` error — it is not
retried up to the bound and no terminal `bentoError` is produced, so the
claim that such errors are treated as generic transient failures is
false at this input. -/
theorem unexpected_status_counterexample :
    download_batch_file (fun _ => "d") (fun _ => .httpError 500 [])
      ⟨"f", "sha256:aa", "https://x", 3⟩ 9 none =
      some ⟨none, [⟨"https://x", none⟩], [], some (.httpStatus 500 []), []⟩ ∧
    [HttpRequest.mk "https://x" none].length = 1 := by decide

/-- C2 amended: a typed HTTP error whose status is not 429 is re-raised
immediately on its first occurrence: the run issues exactly one request
and propagates the `httpStatus` error itself, with no retries and no
escalation to the terminal transfer error. -/
theorem unexpected_status_propagates_immediately (digest : List Nat → String)
    (oracle : Nat → FetchResult) (bf : BatchDownloadFile)
    (disk : Option (List Nat)) (status : Nat)
    (headers : List (String × String)) (fuel : Nat)
    (ho : oracle 0 = .httpError status headers) (hs : status ≠ 429)
    (hdisk : disk = none ∨ ∃ c, disk = some c ∧ c.length < bf.size)
    (hfuel : 1 ≤ fuel) :
    download_batch_file digest oracle bf fuel disk =
      some ⟨disk, [⟨bf.https_url, resumeRange bf disk⟩], [],
        some (.httpStatus status headers), []⟩ := by
  obtain ⟨content, app, h⟩ := inspectLocal_of_incomplete hdisk
  obtain ⟨f, rfl⟩ : ∃ f, fuel = f + 1 := ⟨fuel - 1, by omega⟩
  unfold download_batch_file
  rw [downloadLoop_http_other f 0 h ho hs]

/-- Witness for the amended C2 theorem at a concrete input. -/
theorem unexpected_status_propagates_immediately_witness :
    download_batch_file (fun _ => "d") (fun _ => .httpError 503 [("a", "b")])
      ⟨"f", "sha256:aa", "https://x", 2⟩ 7 (some [1]) =
      some ⟨some [1], [⟨"https://x", some (1, 1)⟩], [],
        some (.httpStatus 503 [("a", "b")]), []⟩ :=
  unexpected_status_propagates_immediately (fun _ => "d")
    (fun _ => .httpError 503 [("a", "b")]) ⟨"f", "sha256:aa", "https://x", 2⟩
    (some [1]) 503 [("a", "b")] 7 rfl (by decide)
    (Or.inr ⟨[1], rfl, by decide⟩) (by decide)

/-- C4: a destination file strictly larger than the expected size fails
fatally with the `FileExistsError` local-conflict error before any
request is issued (never retried), and the contents of the existing file are
left exactly as they were. -/
theorem oversized_local_file_conflict (digest : List Nat → String)
    (oracle : Nat → FetchResult) (bf : BatchDownloadFile) (c : List Nat)
    (fuel : Nat) (hc : bf.size < c.length) (hfuel : 1 ≤ fuel) :
    download_batch_file digest oracle bf fuel (some c) =
      some ⟨some c, [], [], some (.fileExists bf.filename), []⟩ := by
  obtain ⟨f, rfl⟩ : ∃ f, fuel = f + 1 := ⟨fuel - 1, by omega⟩
  have h1 : ¬ c.length < bf.size := by omega
  have h2 : ¬ c.length = bf.size := by omega
  unfold download_batch_file
  rw [downloadLoop_conflict oracle f 0 0 (by simp [inspectLocal, h1, h2])]

/-- Witness for C4 at a concrete oversized file. -/
theorem oversized_local_file_conflict_witness :
    download_batch_file (fun _ => "d") (fun _ => .success [0])
      ⟨"f", "sha256:aa", "https://x", 2⟩ 5 (some [1, 2, 3]) =
      some ⟨some [1, 2, 3], [], [], some (.fileExists "f"), []⟩ :=
  oversized_local_file_conflict (fun _ => "d") (fun _ => .success [0])
    ⟨"f", "sha256:aa", "https://x", 2⟩ [1, 2, 3] 5 (by decide) (by decide)

/-- C5: a destination file holding `k < size` bytes makes the next
attempt issue a ranged request for bytes `[k, size-1]` and append the
response body (`mode = "ab"`); an absent destination makes it issue a
plain request and write the body fresh (`mode = "wb"`). -/
theorem resume_range_and_append :
    (∀ (digest : List Nat → String) (oracle : Nat → FetchResult)
       (bf : BatchDownloadFile) (c body : List Nat) (fuel : Nat),
       c.length < bf.size → 1 ≤ fuel → oracle 0 = .success body →
       download_batch_file digest oracle bf fuel (some c) =
         some ⟨some (c ++ body),
           [⟨bf.https_url, some (c.length, bf.size - 1)⟩], [], none,
           verifyChecksum digest bf (c ++ body)⟩) ∧
    (∀ (digest : List Nat → String) (oracle : Nat → FetchResult)
       (bf : BatchDownloadFile) (body : List Nat) (fuel : Nat),
       1 ≤ fuel → oracle 0 = .success body →
       download_batch_file digest oracle bf fuel none =
         some ⟨some body, [⟨bf.https_url, none⟩], [], none,
           verifyChecksum digest bf body⟩) := by
  constructor
  · intro digest oracle bf c body fuel hc hfuel ho
    obtain ⟨f, rfl⟩ : ∃ f, fuel = f + 1 := ⟨fuel - 1, by omega⟩
    unfold download_batch_file
    rw [downloadLoop_success f 0
      (show inspectLocal bf (some c) =
          .fetch (some (c.length, bf.size - 1)) c true from by
        simp [inspectLocal, hc]) ho]
    rfl
  · intro digest oracle bf body fuel hfuel ho
    obtain ⟨f, rfl⟩ : ∃ f, fuel = f + 1 := ⟨fuel - 1, by omega⟩
    unfold download_batch_file
    rw [downloadLoop_success f 0 (show inspectLocal bf none = _ from rfl) ho]
    rfl

/-- Any number of consecutive 429 responses whose `Retry-After` value
yields a wait prepends one request and one sleep each, leaving the
attempt counter at `0` and the file untouched, ahead of whatever the loop
does from then on. -/
theorem downloadLoop_429_chain {oracle : Nat → FetchResult}
    {bf : BatchDownloadFile} (hdr : Nat → List (String × String))
    (w : Nat → Int) :
    ∀ (k reqIdx fuel : Nat) {disk : Option (List Nat)}
      {range : Option (Nat × Nat)} {content : List Nat} {app : Bool}
      (tail : LoopResult),
      inspectLocal bf disk = .fetch range content app →
      (∀ i, i < k → oracle (reqIdx + i) = .httpError 429 (hdr (reqIdx + i)) ∧
        retryWait (hdr (reqIdx + i)) = some (w (reqIdx + i))) →
      downloadLoop oracle bf fuel (reqIdx + k) 0 disk = some tail →
      downloadLoop oracle bf (k + fuel) reqIdx 0 disk =
        some ⟨tail.disk,
          List.replicate k ⟨bf.https_url, range⟩ ++ tail.requests,
          ((List.range k).map (fun i => w (reqIdx + i))) ++ tail.sleeps,
          tail.error⟩ := by
  intro k
  induction k with
  | zero =>
    intro reqIdx fuel disk range content app tail h h429 htail
    simp only [Nat.add_zero] at htail
    simp [Nat.zero_add, htail]
  | succ k ih =>
    intro reqIdx fuel disk range content app tail h h429 htail
    have h0 := h429 0 (by omega)
    simp only [Nat.add_zero] at h0
    rw [show (k + 1) + fuel = (k + fuel) + 1 by omega]
    rw [downloadLoop_429_wait (k + fuel) 0 h h0.1 h0.2]
    have h429s : ∀ i, i < k →
        oracle ((reqIdx + 1) + i) = .httpError 429 (hdr ((reqIdx + 1) + i)) ∧
        retryWait (hdr ((reqIdx + 1) + i)) = some (w ((reqIdx + 1) + i)) := by
      intro i hi
      have hx := h429 (i + 1) (by omega)
      rwa [show reqIdx + (i + 1) = (reqIdx + 1) + i by omega] at hx
    have htail2 : downloadLoop oracle bf fuel ((reqIdx + 1) + k) 0 disk =
        some tail := by
      rwa [show (reqIdx + 1) + k = reqIdx + (k + 1) by omega]
    rw [ih (reqIdx + 1) fuel tail h h429s htail2]
    have hmap : (List.range k).map (fun i => w ((reqIdx + 1) + i)) =
        (List.range k).map ((fun i => w (reqIdx + i)) ∘ Nat.succ) := by
      refine List.map_congr_left ?_
      intro a _
      simp only [Function.comp]
      rw [show (reqIdx + 1) + a = reqIdx + (a + 1) by omega]
    simp [List.replicate_succ, List.range_succ_eq_map, List.map_map, hmap]

/-- C7 counterexample: a 429 response carrying `Retry-After: soon`.  The
code computes `int("soon")`, which raises `ValueError`: the run stops at
once with `invalidRetryAfter "soon"`, performing no sleep and no retry —
it does not default to 1 second as the claim states for an invalid
header. -/
theorem retry_after_invalid_counterexample :
    download_batch_file (fun _ => "d")
      (fun _ => .httpError 429 [("Retry-After", "soon")])
      ⟨"f", "sha256:aa", "https://x", 3⟩ 9 none =
      some ⟨none, [⟨"https://x", none⟩], [],
        some (.invalidRetryAfter "soon"), []⟩ ∧
    pythonInt? "soon" = none := by decide

/-- C7 amended: on HTTP 429 the code sleeps for the parsed `Retry-After`
value, defaulting to 1 second only when the header is absent (an
unparsable value instead raises an error); such rate-limit retries are
unbounded in number and never touch the generic attempt counter: after
`k` consecutive 429 responses with parsable waits, the full budget of 4
generic attempts is still available, so an always-failing tail still
takes exactly 4 further attempts. -/
theorem rate_limit_unbounded_no_penalty (digest : List Nat → String)
    (oracle : Nat → FetchResult) (hdr : Nat → List (String × String))
    (w : Nat → Int) (m : Nat → String) (bf : BatchDownloadFile)
    (disk : Option (List Nat)) (fuel k : Nat)
    (h429 : ∀ i, i < k → oracle i = .httpError 429 (hdr i) ∧
      retryWait (hdr i) = some (w i))
    (hconn : ∀ i, k ≤ i → oracle i = .connError none (m i))
    (hdisk : disk = none ∨ ∃ c, disk = some c ∧ c.length < bf.size)
    (hfuel : k + 4 ≤ fuel) :
    retryWait [] = some 1 ∧
    download_batch_file digest oracle bf fuel disk =
      some ⟨disk, List.replicate (k + 4) ⟨bf.https_url, resumeRange bf disk⟩,
        (List.range k).map w, some (.bentoError (m (k + 3))), []⟩ := by
  refine ⟨rfl, ?_⟩
  obtain ⟨content, app, h⟩ := inspectLocal_of_incomplete hdisk
  obtain ⟨f, rfl⟩ : ∃ f, fuel = k + (f + 4) := ⟨fuel - k - 4, by omega⟩
  have tail := downloadLoop_conn_four m f k h (fun i hi => hconn i hi)
  have h429z : ∀ i, i < k →
      oracle (0 + i) = .httpError 429 (hdr (0 + i)) ∧
      retryWait (hdr (0 + i)) = some (w (0 + i)) := by
    intro i hi
    simpa using h429 i hi
  have main := downloadLoop_429_chain hdr w k 0 (f + 4)
    ⟨disk, List.replicate 4 ⟨bf.https_url, resumeRange bf disk⟩, [],
      some (.bentoError (m (k + 3)))⟩ h h429z (by simpa using tail)
  unfold download_batch_file
  rw [main]
  simp only [Nat.zero_add, List.append_nil, ← List.replicate_add]

/-- Witness for the amended C7: two 429 responses with absent
`Retry-After` (default wait 1), then an always-failing tail: success of
the bound takes 2 + 4 requests, two sleeps of 1 second, and the terminal
error still wraps the last cause. -/
theorem rate_limit_unbounded_no_penalty_witness :
    retryWait [] = some 1 ∧
    download_batch_file (fun _ => "d")
      (fun i => if i < 2 then .httpError 429 [] else .connError none "x")
      ⟨"f", "sha256:aa", "https://x", 3⟩ 6 none =
      some ⟨none, List.replicate 6 ⟨"https://x", none⟩, [1, 1],
        some (.bentoError "x"), []⟩ :=
  rate_limit_unbounded_no_penalty (fun _ => "d")
    (fun i => if i < 2 then .httpError 429 [] else .connError none "x")
    (fun _ => []) (fun _ => 1) (fun _ => "x")
    ⟨"f", "sha256:aa", "https://x", 3⟩ none 6 2
    (fun i hi => ⟨by simp [hi], rfl⟩)
    (fun i hi => by simp [Nat.not_lt.mpr hi])
    (Or.inl rfl) (by decide)

/-- Writing back the content a path already holds leaves the file table
unchanged. -/
theorem setFile_lookup_eq {fs : List (String × List Nat)} {p : String}
    {c : List Nat} (h : alistGet fs p = some c) : setFile fs p c = fs := by
  induction fs with
  | nil => simp [alistGet] at h
  | cons hd t ih =>
    obtain ⟨q, d⟩ := hd
    by_cases hq : q = p
    · subst hq
      simp [alistGet] at h
      simp [setFile, h]
    · simp only [alistGet, if_neg hq] at h
      simp [setFile, hq, ih h]

/-- Running the tasks of a job whose destination files all already hold
exactly their expected bytes: no request is issued, the file table is
unchanged, and the full path list is returned. -/
theorem runBatch_all_complete (digest : List Nat → String)
    (oracles : Nat → Nat → FetchResult) (fuel : Nat) (dir : String) :
    ∀ (targets : List BatchDownloadFile) (idx : Nat)
      (fs : List (String × List Nat)),
      1 ≤ fuel →
      (∀ t ∈ targets, ∃ c,
        alistGet fs (dir ++ "/" ++ t.filename) = some c ∧ c.length = t.size) →
      ∃ ws, runBatch digest oracles fuel dir targets idx fs =
        some ⟨fs, [], .ok (targets.map (fun t => dir ++ "/" ++ t.filename)),
          ws⟩ := by
  intro targets
  induction targets with
  | nil => intro idx fs hfuel hc; exact ⟨[], rfl⟩
  | cons t rest ih =>
    intro idx fs hfuel hc
    obtain ⟨c, hget, hlen⟩ := hc t (by simp)
    obtain ⟨ws, hws⟩ := ih (idx + 1) fs hfuel (fun x hx => hc x (by simp [hx]))
    refine ⟨verifyChecksum digest t c ++ ws, ?_⟩
    simp only [runBatch]
    rw [hget, download_batch_file_complete digest (oracles idx) hlen hfuel]
    simp only [applyDisk, setFile_lookup_eq hget]
    rw [hws]
    simp

/-- C6: re-running the coordinator against a job whose destination files
all already exist with exactly their expected sizes issues zero HTTP
requests, leaves the bytes of every file unchanged, and returns the canonical
path list `outputDir/jobId/filename` for every target. -/
theorem rerun_complete_idempotent (digest : List Nat → String)
    (oracles : Nat → Nat → FetchResult) (fuel : Nat)
    (jobId outputDir : String) (entries : List RawEntry)
    (flt : Option (List String)) (disk : Disk)
    (targets : List BatchDownloadFile)
    (hbuild : buildTargets jobId entries flt = .ok targets)
    (hfuel : 1 ≤ fuel)
    (hcomplete : ∀ t ∈ targets, ∃ c,
      alistGet disk.files (outputDir ++ "/" ++ jobId ++ "/" ++ t.filename) =
        some c ∧ c.length = t.size) :
    batch_download digest oracles fuel jobId outputDir entries flt disk =
      some (.ok (targets.map
          (fun t => outputDir ++ "/" ++ jobId ++ "/" ++ t.filename)),
        ⟨insertDir disk.dirs (outputDir ++ "/" ++ jobId), disk.files⟩, []) := by
  obtain ⟨ws, hws⟩ := runBatch_all_complete digest oracles fuel
    (outputDir ++ "/" ++ jobId) targets 0 disk.files hfuel hcomplete
  unfold batch_download
  rw [hbuild]
  simp [hws]

/-- Witness for C6 at a one-target job whose file is already complete. -/
theorem rerun_complete_idempotent_witness :
    batch_download (fun _ => "d") (fun _ _ => .connError none "e") 1 "j" "o"
      [⟨some "a", some "h", some 2, some [("https", "u")]⟩] none
      ⟨["o/j"], [("o/j/a", [4, 5])]⟩ =
      some (.ok ["o/j/a"], ⟨["o/j"], [("o/j/a", [4, 5])]⟩, []) :=
  rerun_complete_idempotent (fun _ => "d") (fun _ _ => .connError none "e")
    1 "j" "o" [⟨some "a", some "h", some 2, some [("https", "u")]⟩] none
    ⟨["o/j"], [("o/j/a", [4, 5])]⟩ [⟨"a", "h", "u", 2⟩] (by decide) (by decide)
    (by
      intro t ht
      simp only [List.mem_singleton] at ht
      subst ht
      exact ⟨[4, 5], rfl, rfl⟩)

/-- The collected result (first component) of the async fan-in does not
depend on the task count used only for cancellation. -/
theorem download_async_collect_go_fst (n : Nat) :
    ∀ results, (download_async_collect_go n results).1 =
      (download_collect results).1 := by
  intro results
  induction results with
  | nil => rfl
  | cons x rest ih =>
    cases x with
    | error e => rfl
    | ok p =>
      simp only [download_collect, download_async_collect_go]
      rcases hgo : download_async_collect_go n rest with ⟨o1, c1⟩
      rcases hco : download_collect rest with ⟨o2, c2⟩
      rw [hgo, hco] at ih
      cases o2 with
      | ok ps => cases o1 with
        | ok qs => simp at ih; simp [ih]
        | error e1 => simp at ih
      | error e2 => cases o1 with
        | ok qs => simp at ih
        | error e1 => simp at ih; simp [ih]

/-- The blocking fan-in never requests cancellation. -/
theorem download_collect_cancels_nothing :
    ∀ results, (download_collect results).2 = [] := by
  intro results
  induction results with
  | nil => rfl
  | cons x rest ih =>
    cases x with
    | error e => rfl
    | ok p =>
      simp only [download_collect]
      rcases hco : download_collect rest with ⟨o2, c2⟩
      rw [hco] at ih
      cases o2 <;> simpa using ih

/-- On the first fatal outcome, the async fan-in cancels every task in
the `tasks` list. -/
theorem download_async_collect_go_error (n : Nat) :
    ∀ (pre : List TaskResult) (e : DownloadError) (rest : List TaskResult),
      (∀ x ∈ pre, ∃ p, x = .ok p) →
      download_async_collect_go n (pre ++ .error e :: rest) =
        (.error e, List.range n) := by
  intro pre
  induction pre with
  | nil => intro e rest hpre; rfl
  | cons x pre ih =>
    intro e rest hpre
    obtain ⟨p, rfl⟩ := hpre x (by simp)
    simp only [List.cons_append, download_async_collect_go, List.append_eq]
    rw [ih e rest (fun y hy => hpre y (by simp [hy]))]

/-- On the first fatal outcome, the blocking fan-in propagates the error
without requesting any cancellation. -/
theorem download_collect_error :
    ∀ (pre : List TaskResult) (e : DownloadError) (rest : List TaskResult),
      (∀ x ∈ pre, ∃ p, x = .ok p) →
      download_collect (pre ++ .error e :: rest) = (.error e, []) := by
  intro pre
  induction pre with
  | nil => intro e rest hpre; rfl
  | cons x pre ih =>
    intro e rest hpre
    obtain ⟨p, rfl⟩ := hpre x (by simp)
    simp only [List.cons_append, download_collect, List.append_eq]
    rw [ih e rest (fun y hy => hpre y (by simp [hy]))]

/-- C3 counterexample: a batch of two tasks whose first completion is
fatal.  The blocking `download` fan-in propagates the error having
cancelled nothing, while `download_async` cancels both tasks: the claim
that in both entry points the outstanding tasks are cancelled on the
first fatal outcome is false. -/
theorem sync_no_cancel_counterexample :
    download_collect [.error (.bentoError "x"), .ok "a"] =
      (.error (.bentoError "x"), []) ∧
    download_async_collect [.error (.bentoError "x"), .ok "a"] =
      (.error (.bentoError "x"), [0, 1]) ∧
    ([] : List Nat) ≠ [0, 1] := by decide

/-- C3 amended: for the same completion-ordered task outcomes, the two
entry points return identical results — the same path list on success
and the same first fatal error otherwise (and neither ever deletes a
completed file: the fan-ins only read task outcomes) — but their
cancellation semantics differ: the blocking `download` never requests
cancellation, while `download_async` requests cancellation of every task
on the first fatal outcome. -/
theorem sync_async_fanin (results pre rest : List TaskResult)
    (e : DownloadError) (hpre : ∀ x ∈ pre, ∃ p, x = .ok p) :
    (download_collect results).1 = (download_async_collect results).1 ∧
    (download_collect results).2 = [] ∧
    download_collect (pre ++ .error e :: rest) = (.error e, []) ∧
    download_async_collect (pre ++ .error e :: rest) =
      (.error e, List.range (pre ++ .error e :: rest).length) :=
  ⟨(download_async_collect_go_fst _ results).symm,
   download_collect_cancels_nothing results,
   download_collect_error pre e rest hpre,
   download_async_collect_go_error _ pre e rest hpre⟩

/-- Witness for the amended C3 at a concrete two-task batch. -/
theorem sync_async_fanin_witness :
    (download_collect [.ok "a", .error (.bentoError "x")]).1 =
      (download_async_collect [.ok "a", .error (.bentoError "x")]).1 ∧
    (download_collect [.ok "a", .error (.bentoError "x")]).2 = [] ∧
    download_collect ([.ok "a"] ++ .error (.bentoError "x") :: []) =
      (.error (.bentoError "x"), []) ∧
    download_async_collect ([.ok "a"] ++ .error (.bentoError "x") :: []) =
      (.error (.bentoError "x"),
        List.range ([TaskResult.ok "a"] ++
          TaskResult.error (DownloadError.bentoError "x") :: []).length) :=
  sync_async_fanin [.ok "a", .error (.bentoError "x")] [.ok "a"] []
    (.bentoError "x")
    (by intro x hx; simp only [List.mem_singleton] at hx; exact ⟨"a", hx⟩)

/-- Stepping the manifest validation over an entry that has all required
keys and an https URL: its validation succeeds, later entries are
processed, and only then does the filter decide whether it is kept. -/
theorem parse_files_cons_of_ok (flt : Option (List String)) (x : RawEntry)
    (rest : List RawEntry) (hx : entryOk x = true) :
    parse_files flt (x :: rest) =
      match parse_files flt rest with
      | .error er => .error er
      | .ok files =>
        if keepFile flt (x.filename.getD "") then
          .ok (⟨x.filename.getD "", x.hash.getD "",
            (alistGet (x.urls.getD []) "https").getD "", x.size.getD 0⟩ ::
            files)
        else .ok files := by
  obtain ⟨xf, xh, xs, xu⟩ := x
  cases xf with
  | none => simp [entryOk] at hx
  | some xfn =>
    cases xh with
    | none => simp [entryOk] at hx
    | some xhash =>
      cases xs with
      | none => simp [entryOk] at hx
      | some xsize =>
        cases xu with
        | none => simp [entryOk] at hx
        | some xurls =>
          simp only [entryOk] at hx
          obtain ⟨u, hu⟩ := Option.isSome_iff_exists.mp hx
          simp [parse_files, hu]

/-- Entries that all validate but are all excluded by the filter yield an
empty target list without error. -/
theorem parse_files_all_excluded (names : List String) :
    ∀ entries : List RawEntry,
      (∀ e ∈ entries, entryOk e = true ∧
        names.contains (e.filename.getD "") = false) →
      parse_files (some names) entries = .ok [] := by
  intro entries
  induction entries with
  | nil => intro _; rfl
  | cons e rest ih =>
    intro h
    obtain ⟨hok, hname⟩ := h e (by simp)
    rw [parse_files_cons_of_ok (some names) e rest hok,
      ih (fun x hx => h x (by simp [hx]))]
    have hname2 : (e.filename.getD "") ∉ names := by simpa using hname
    simp [keepFile, hname2]

/-- An entry lacking an `https` URL aborts the validation pass with an
error naming its filename, whatever the filter is, provided the entries
before it validate. -/
theorem parse_files_missing_https (flt : Option (List String)) :
    ∀ (pre : List RawEntry) (e : RawEntry) (post : List RawEntry)
      (fn hs : String) (sz : Nat) (urls : List (String × String)),
      (∀ x ∈ pre, entryOk x = true) →
      e.filename = some fn → e.hash = some hs → e.size = some sz →
      e.urls = some urls → alistGet urls "https" = none →
      parse_files flt (pre ++ e :: post) =
        .error (.deliveryUnavailable fn) := by
  intro pre
  induction pre with
  | nil =>
    intro e post fn hs sz urls _ hfn hh hsz hu hno
    simp only [List.nil_append, parse_files, hfn, hh, hsz, hu, hno]
  | cons x pre2 ih =>
    intro e post fn hs sz urls hpre hfn hh hsz hu hno
    have hx := hpre x (by simp)
    rw [List.cons_append, parse_files_cons_of_ok flt x (pre2 ++ e :: post) hx,
      ih e post fn hs sz urls (fun y hy => hpre y (by simp [hy]))
        hfn hh hsz hu hno]

/-- C9 counterexample: a one-entry manifest together with a filter that
names a different file: construction succeeds with an empty target set
and the download returns a successful empty result — not the fatal
configuration error the claim demands. -/
theorem filtered_empty_counterexample :
    buildTargets "j" [⟨some "a", some "h", some 5, some [("https", "u")]⟩]
      (some ["b"]) = .ok [] ∧
    batch_download (fun _ => "d") (fun _ _ => .connError none "e") 1 "j" "o"
      [⟨some "a", some "h", some 5, some [("https", "u")]⟩] (some ["b"])
      ⟨[], []⟩ = some (.ok [], ⟨["o/j"], []⟩, []) := by decide

/-- C9 amended: a remote file listing with zero entries is a fatal error
(`RuntimeError`), but an empty target set after applying the supplied
filename filter is not: construction succeeds with zero targets and the
download entry point returns a successful empty result. -/
theorem empty_manifest_vs_filtered_empty (jobId outputDir : String)
    (digest : List Nat → String) (oracles : Nat → Nat → FetchResult)
    (fuel : Nat) (flt : Option (List String)) (names : List String)
    (entries : List RawEntry) (e0 : RawEntry) (disk : Disk)
    (hall : ∀ e ∈ e0 :: entries, entryOk e = true ∧
      names.contains (e.filename.getD "") = false) :
    buildTargets jobId [] flt = .error (.noFiles jobId) ∧
    buildTargets jobId (e0 :: entries) (some names) = .ok [] ∧
    batch_download digest oracles fuel jobId outputDir (e0 :: entries)
      (some names) disk =
      some (.ok [], ⟨insertDir disk.dirs (outputDir ++ "/" ++ jobId),
        disk.files⟩, []) := by
  have hb : buildTargets jobId (e0 :: entries) (some names) = .ok [] := by
    simp only [buildTargets]
    exact parse_files_all_excluded names (e0 :: entries) hall
  refine ⟨rfl, hb, ?_⟩
  unfold batch_download
  rw [hb]
  simp [runBatch]

/-- Witness for the amended C9 at a concrete entry and filter. -/
theorem empty_manifest_vs_filtered_empty_witness :
    buildTargets "j" [] none = .error (.noFiles "j") ∧
    buildTargets "j" [⟨some "a", some "h", some 5, some [("https", "u")]⟩]
      (some ["b"]) = .ok [] ∧
    batch_download (fun _ => "d") (fun _ _ => .connError none "e") 2 "j" "o"
      [⟨some "a", some "h", some 5, some [("https", "u")]⟩] (some ["b"])
      ⟨["o/j"], []⟩ = some (.ok [], ⟨["o/j"], []⟩, []) :=
  empty_manifest_vs_filtered_empty "j" "o" (fun _ => "d")
    (fun _ _ => .connError none "e") 2 none ["b"] []
    ⟨some "a", some "h", some 5, some [("https", "u")]⟩ ⟨["o/j"], []⟩
    (by
      intro e he
      simp only [List.mem_singleton] at he
      subst he
      exact ⟨rfl, rfl⟩)

/-- C10: per-entry validation (required keys `filename`/`hash`/`size`/
`urls` and an `https` URL) runs before the filename filter is consulted
and before any filesystem change: an entry missing its `https` URL aborts
construction with an error naming that filename even when the supplied
filter would have excluded the entry, and whenever construction fails the
filesystem is returned untouched — no output directory is created and no
file is written. -/
theorem validation_before_filter_and_fs (jobId outputDir : String)
    (digest : List Nat → String) (oracles : Nat → Nat → FetchResult)
    (fuel : Nat) (names : List String) (pre post : List RawEntry)
    (e : RawEntry) (fn hs : String) (sz : Nat)
    (urls : List (String × String)) (entries2 : List RawEntry)
    (flt2 : Option (List String)) (er : InitError) (disk2 : Disk)
    (hpre : ∀ x ∈ pre, entryOk x = true)
    (hfn : e.filename = some fn) (hh : e.hash = some hs)
    (hsz : e.size = some sz) (hu : e.urls = some urls)
    (hno : alistGet urls "https" = none)
    (hexcl : names.contains fn = false)
    (hbuild2 : buildTargets jobId entries2 flt2 = .error er) :
    buildTargets jobId (pre ++ e :: post) (some names) =
      .error (.deliveryUnavailable fn) ∧
    batch_download digest oracles fuel jobId outputDir entries2 flt2 disk2 =
      some (.error (.init er), disk2, []) := by
  constructor
  · have hp := parse_files_missing_https (some names) pre e post fn hs sz
      urls hpre hfn hh hsz hu hno
    cases pre with
    | nil => simpa [buildTargets] using hp
    | cons x pre2 => simpa [buildTargets] using hp
  · unfold batch_download
    rw [hbuild2]

/-- Witness for C10: a valid first entry, a second entry without an
`https` URL that the filter would exclude, and the untouched-filesystem
conclusion for that failing construction. -/
theorem validation_before_filter_and_fs_witness :
    buildTargets "j" ([⟨some "a", some "h", some 1,
        some [("https", "u")]⟩] ++
        ⟨some "b", some "h2", some 2, some [("ftp", "v")]⟩ :: [])
      (some ["zzz"]) = .error (.deliveryUnavailable "b") ∧
    batch_download (fun _ => "d") (fun _ _ => .connError none "e") 1 "j" "o"
      [⟨some "a", some "h", some 1, some [("https", "u")]⟩,
        ⟨some "b", some "h2", some 2, some [("ftp", "v")]⟩] (some ["zzz"])
      ⟨[], []⟩ =
      some (.error (.init (.deliveryUnavailable "b")), ⟨[], []⟩, []) :=
  validation_before_filter_and_fs "j" "o" (fun _ => "d")
    (fun _ _ => .connError none "e") 1 ["zzz"]
    [⟨some "a", some "h", some 1, some [("https", "u")]⟩] []
    ⟨some "b", some "h2", some 2, some [("ftp", "v")]⟩ "b" "h2" 2
    [("ftp", "v")]
    [⟨some "a", some "h", some 1, some [("https", "u")]⟩,
      ⟨some "b", some "h2", some 2, some [("ftp", "v")]⟩] (some ["zzz"])
    (.deliveryUnavailable "b") ⟨[], []⟩
    (by
      intro x hx
      simp only [List.mem_singleton] at hx
      subst hx
      rfl)
    rfl rfl rfl rfl rfl rfl (by decide)

/-- C8 counterexample: the computed hex digest (always lower-case from
`hexdigest()`) is compared to the declared digest with plain string
inequality, not case-insensitively: a file whose digest `"ab"` matches
the declared `"AB"` up to case is flagged as a checksum mismatch. -/
theorem checksum_case_counterexample :
    download_batch_file (fun _ => "ab") (fun _ => .connError none "e")
      ⟨"a", "sha256:AB", "https://x", 1⟩ 3 (some [7]) =
      some ⟨some [7], [], [], none, [.checksumMismatch "a"]⟩ ∧
    lowerStr "ab" = lowerStr "AB" := by decide

/-- C8 amended: for a file at its expected size, integrity verification
never fails the transfer: the outcome is success whatever the digest and
declared hash are; with algorithm `sha256` the computed digest is
compared to the declared hex by exact (case-sensitive) string equality
and a mismatch only emits a warning naming the file; an unrecognized
algorithm only emits a warning naming it. -/
theorem checksum_never_fails_transfer (digest : List Nat → String)
    (oracle : Nat → FetchResult) (bf : BatchDownloadFile) (c : List Nat)
    (fuel : Nat) (hc : c.length = bf.size) (hfuel : 1 ≤ fuel) :
    download_batch_file digest oracle bf fuel (some c) =
      some ⟨some c, [], [], none,
        if (str_partition bf.hash_str ':').1 = "sha256" then
          if digest c = (str_partition bf.hash_str ':').2.2 then []
          else [.checksumMismatch bf.filename]
        else [.unsupportedAlgorithm bf.filename
          (str_partition bf.hash_str ':').1]⟩ := by
  rw [download_batch_file_complete digest oracle hc hfuel]
  simp only [verifyChecksum, ite_not]

/-- Witness for the amended C8 at a concrete unsupported algorithm. -/
theorem checksum_never_fails_transfer_witness :
    download_batch_file (fun _ => "d") (fun _ => .success [])
      ⟨"f", "crc32:xx", "https://x", 1⟩ 2 (some [5]) =
      some ⟨some [5], [], [], none, [.unsupportedAlgorithm "f" "crc32"]⟩ :=
  checksum_never_fails_transfer (fun _ => "d") (fun _ => .success [])
    ⟨"f", "crc32:xx", "https://x", 1⟩ [5] 2 (by decide) (by decide)

/-- Witness for C5: both the resumed-range case and the fresh case at
concrete inputs. -/
theorem resume_range_and_append_witness :
    download_batch_file (fun _ => "d") (fun _ => .success [8, 9])
      ⟨"f", "sha256:aa", "https://x", 3⟩ 4 (some [7]) =
      some ⟨some [7, 8, 9], [⟨"https://x", some (1, 2)⟩], [], none,
        [.checksumMismatch "f"]⟩ ∧
    download_batch_file (fun _ => "d") (fun _ => .success [8, 9])
      ⟨"f", "sha256:aa", "https://x", 3⟩ 4 none =
      some ⟨some [8, 9], [⟨"https://x", none⟩], [], none,
        [.checksumMismatch "f"]⟩ :=
  ⟨resume_range_and_append.1 (fun _ => "d") (fun _ => .success [8, 9])
      ⟨"f", "sha256:aa", "https://x", 3⟩ [7] [8, 9] 4 (by decide) (by decide) rfl,
   resume_range_and_append.2 (fun _ => "d") (fun _ => .success [8, 9])
      ⟨"f", "sha256:aa", "https://x", 3⟩ [8, 9] 4 (by decide) rfl⟩

end Databento
